import Mathlib

/-!
Shallow embedding of the session subsystem of the navigator repository
(file navigator/auth/sessions/storages/abstract.py): the SessionData
dict-like object, the AbstractStorage construction and forgot operation,
and the session middleware.  Python values are modelled by a small
inductive type with Python truthiness; dictionaries by association lists
with uniqueness-preserving update.
-/

set_option autoImplicit false

namespace Navigator

/-- Model of the Python values that flow through the session layer:
None, booleans, integers and strings. -/
inductive PyVal where
  | none
  | bool (b : Bool)
  | int (n : Int)
  | str (s : String)
deriving DecidableEq, Repr

/-- Python truthiness of a value: None, False, 0 and the empty string
are falsy, everything else is truthy. -/
def PyVal.truthy : PyVal → Bool
  | PyVal.none => false
  | PyVal.bool b => b
  | PyVal.int n => n != 0
  | PyVal.str s => s != ""

/-- Numeric view of a value, for Python arithmetic: integers are
themselves, booleans are 0 or 1, everything else has no numeric view
(arithmetic raises TypeError). -/
def PyVal.toNum : PyVal → Option Int
  | PyVal.int n => Option.some n
  | PyVal.bool b => Option.some (if b then 1 else 0)
  | _ => Option.none

/-- A Python dict with string keys, as an insertion-ordered association
list. -/
abbrev PyDict := List (String × PyVal)

/-- First binding of a key, if present. -/
def dictGet : PyDict → String → Option PyVal
  | [], _ => Option.none
  | (k, v) :: rest, key => if key = k then Option.some v else dictGet rest key

/-- Python d.get(key, None): the bound value, or None when the key is
absent. -/
def pyGet (d : PyDict) (key : String) : PyVal :=
  (dictGet d key).getD PyVal.none

/-- Python d[key] = v: overwrite in place when the key exists, append
otherwise (insertion order preserved). -/
def dictSet : PyDict → String → PyVal → PyDict
  | [], key, v => [(key, v)]
  | (k, w) :: rest, key, v =>
      if key = k then (k, v) :: rest else (k, w) :: dictSet rest key v

/-- Python del d[key]: remove the binding of the key (the caller checks
presence). -/
def dictDel : PyDict → String → PyDict
  | [], _ => []
  | (k, w) :: rest, key => if key = k then rest else (k, w) :: dictDel rest key

/-- Python key in d. -/
def dictHas (d : PyDict) (key : String) : Bool :=
  (dictGet d key).isSome

/-- Python d.update(src): fold the source bindings into d with dict
assignment. -/
def dictUpdate (d : PyDict) (src : PyDict) : PyDict :=
  src.foldl (fun acc kv => dictSet acc kv.1 kv.2) d

/-- State of a SessionData object: the change flag, the attribute dict,
the identity, the freshness flag, the stored max age and the creation
stamp (kept as a PyVal since the source copies whatever non-None value
the supplied data carried). -/
structure SessionData where
  _changed : Bool
  _data : PyDict
  _identity : PyVal
  _new : Bool
  _max_age : Option Int
  _created : PyVal
deriving DecidableEq, Repr

/-- SessionData.__init__.  The uuid4().hex call is modelled by the
gen_id parameter (a fresh token supplied by the environment) and
time.time() by the now parameter.  data is Optional with Python default
value the empty dict; identity is an arbitrary value defaulting to None.
Construction fails (returns Option.none, the TypeError of
now - created) exactly when the created value taken from data is truthy
but not numeric.  The source also compares the computed age against
max_age and binds a local that is never read; that computation has no
effect on the constructed object and so leaves no trace here. -/
def SessionData.init (session_key : String) (gen_id : String) (now : Int)
    (data : Option PyDict) (new : Bool) (identity : PyVal)
    (max_age : Option Int) : Option SessionData :=
  let dataTruthy : Bool :=
    match data with
    | Option.none => false
    | Option.some l => l != []
  let id0 : PyVal := if dataTruthy then pyGet (data.getD []) session_key else identity
  let id1 : PyVal := if id0.truthy then id0 else PyVal.str gen_id
  let isnew : Bool := if data = Option.some ([] : PyDict) then true else new
  let maxAge : Option Int :=
    match max_age with
    | Option.some n => if n != 0 then Option.some n else Option.none
    | Option.none => Option.none
  let createdPy : PyVal := if dataTruthy then pyGet (data.getD []) "created" else PyVal.none
  match (if createdPy.truthy then createdPy.toNum.map (fun c => now - c) else Option.some now) with
  | Option.none => Option.none
  | Option.some _age =>
      let createdF : PyVal :=
        if isnew || createdPy = PyVal.none then PyVal.int now else createdPy
      let d : PyDict :=
        match data with
        | Option.none => []
        | Option.some l => dictUpdate [] l
      Option.some
        { _changed := false
          _data := d
          _identity := id1
          _new := isnew
          _max_age := maxAge
          _created := createdF }

/-- Property new. -/
def SessionData.new (s : SessionData) : Bool := s._new

/-- Property identity. -/
def SessionData.identity (s : SessionData) : PyVal := s._identity

/-- Property created. -/
def SessionData.created (s : SessionData) : PyVal := s._created

/-- Property empty: true when the attribute dict is empty. -/
def SessionData.empty (s : SessionData) : Bool := s._data.isEmpty

/-- Property max_age. -/
def SessionData.max_age (s : SessionData) : Option Int := s._max_age

/-- Property is_changed. -/
def SessionData.is_changed (s : SessionData) : Bool := s._changed

/-- Method changed(): mark the session dirty. -/
def SessionData.changed (s : SessionData) : SessionData :=
  { s with _changed := true }

/-- Method session_data(): the raw attribute dict. -/
def SessionData.session_data (s : SessionData) : PyDict := s._data

/-- Method invalidate(): set the change flag and replace the attribute
dict with a fresh empty one. -/
def SessionData.invalidate (s : SessionData) : SessionData :=
  { s with _changed := true, _data := [] }

/-- Python len of the session: the attribute count. -/
def SessionData.lenVal (s : SessionData) : Nat := s._data.length

/-- Iteration over the session: the keys in insertion order. -/
def SessionData.iterKeys (s : SessionData) : List String := s._data.map Prod.fst

/-- Membership test of a key in the session. -/
def SessionData.containsKey (s : SessionData) (key : String) : Bool :=
  dictHas s._data key

/-- Item read: Option.none models the KeyError on a missing key. -/
def SessionData.getItem (s : SessionData) (key : String) : Option PyVal :=
  dictGet s._data key

/-- Item write: store the value and mark the session changed. -/
def SessionData.setItem (s : SessionData) (key : String) (v : PyVal) : SessionData :=
  { s with _data := dictSet s._data key v, _changed := true }

/-- Item deletion: Option.none models the KeyError raised on a missing
key; on success the change flag is set. -/
def SessionData.delItem (s : SessionData) (key : String) : Option SessionData :=
  if dictHas s._data key then
    Option.some { s with _data := dictDel s._data key, _changed := true }
  else
    Option.none

/-- The operations a handler can perform on a SessionData. -/
inductive SOp where
  | get (key : String)
  | set (key : String) (v : PyVal)
  | del (key : String)
  | contains (key : String)
  | len
  | iterate
  | invalidate
  | emptyq
deriving DecidableEq, Repr

/-- One operation with Python's raising behaviour: get and del raise
KeyError (Except.error) on a missing key, every other operation
succeeds. -/
def stepE (s : SessionData) : SOp → Except Unit SessionData
  | SOp.get key =>
      match s.getItem key with
      | Option.some _ => Except.ok s
      | Option.none => Except.error ()
  | SOp.set key v => Except.ok (s.setItem key v)
  | SOp.del key =>
      match s.delItem key with
      | Option.some t => Except.ok t
      | Option.none => Except.error ()
  | SOp.contains _ => Except.ok s
  | SOp.len => Except.ok s
  | SOp.iterate => Except.ok s
  | SOp.invalidate => Except.ok s.invalidate
  | SOp.emptyq => Except.ok s

/-- State evolution of one operation: a raising operation leaves the
object untouched (the exception propagates to the caller but the
object lives on unchanged). -/
def step (s : SessionData) (op : SOp) : SessionData :=
  match stepE s op with
  | Except.ok t => t
  | Except.error _ => s

/-- State after a sequence of operations. -/
def run (s : SessionData) (ops : List SOp) : SessionData :=
  ops.foldl step s

/-- AbstractStorage state: only the max_age default matters to the
abstract contract. -/
structure AbstractStorage where
  max_age : Int
deriving DecidableEq, Repr

/-- AbstractStorage.__init__: a falsy max_age (None or 0) falls back to
the configured SESSION_TIMEOUT, modelled by the session_timeout
parameter. -/
def AbstractStorage.init (session_timeout : Int) (max_age : Option Int) :
    AbstractStorage :=
  match max_age with
  | Option.none => { max_age := session_timeout }
  | Option.some n => if n = 0 then { max_age := session_timeout } else { max_age := n }

/-- Outcome of one of the awaited storage steps inside forgot. -/
inductive StepOutcome where
  | ok
  | raises
deriving DecidableEq, Repr

/-- AbstractStorage.forgot: await get_session, await invalidate, set the
session slot to None, then try deleting the identity and object slots;
the except clause catches any deletion error and the finally clause
returns True regardless.  get_session and invalidate sit outside the
try block, so their exceptions propagate (Except.error). -/
def forgot (get_session_result invalidate_result : StepOutcome)
    (del_slots_raises : Bool) : Except Unit Bool :=
  match get_session_result with
  | StepOutcome.raises => Except.error ()
  | StepOutcome.ok =>
      match invalidate_result with
      | StepOutcome.raises => Except.error ()
      | StepOutcome.ok =>
          match del_slots_raises with
          | true => Except.ok true
          | false => Except.ok true

/-- What the request context holds under the SESSION_OBJECT key: a
genuine SessionData or some other value (the middleware checks with
isinstance). -/
inductive SessionSlot where
  | sess (s : SessionData)
  | other (v : PyVal)

/-- What the handler produced: a raised HTTPException, a value that is
not a StreamResponse (raw value, websocket, streaming upgrade), or a
standard response with its prepared flag. -/
inductive HandlerOutcome where
  | raisesHTTP
  | nonResponse (v : PyVal)
  | response (prepared : Bool)
deriving DecidableEq, Repr

/-- Observable events of one middleware invocation, in order. -/
inductive Event where
  | attachStorage
  | handlerReturned
  | inspectSession
  | saveSession
  | middlewareReturn
deriving DecidableEq, Repr

/-- Result of the middleware: the value returned, a re-raised
HTTPException, or the RuntimeError on prepared responses. -/
inductive MwResult where
  | returned (r : HandlerOutcome)
  | raisedHTTP
  | runtimeError
deriving DecidableEq, Repr

/-- The middleware body built by session_middleware: stamp the storage
onto the request, run the handler, re-raise HTTPException, pass
non-StreamResponse results through untouched, fail on prepared
responses, and otherwise read the SESSION_OBJECT slot and call
save_session exactly when it holds a changed SessionData. -/
def session_middleware (slot : Option SessionSlot) (outcome : HandlerOutcome) :
    MwResult × List Event :=
  let evs0 : List Event := [Event.attachStorage]
  match outcome with
  | HandlerOutcome.raisesHTTP => (MwResult.raisedHTTP, evs0)
  | HandlerOutcome.nonResponse v =>
      (MwResult.returned (HandlerOutcome.nonResponse v),
       evs0 ++ [Event.handlerReturned, Event.middlewareReturn])
  | HandlerOutcome.response prepared =>
      let evs1 := evs0 ++ [Event.handlerReturned]
      if prepared then (MwResult.runtimeError, evs1)
      else
        let evs2 := evs1 ++ [Event.inspectSession]
        match slot with
        | Option.some (SessionSlot.sess s) =>
            if s.is_changed then
              (MwResult.returned (HandlerOutcome.response prepared),
               evs2 ++ [Event.saveSession, Event.middlewareReturn])
            else
              (MwResult.returned (HandlerOutcome.response prepared),
               evs2 ++ [Event.middlewareReturn])
        | _ =>
            (MwResult.returned (HandlerOutcome.response prepared),
             evs2 ++ [Event.middlewareReturn])

/-- The condition under which the middleware persists: the slot holds a
genuine SessionData whose change flag is set. -/
def sessionChanged : Option SessionSlot → Bool
  | Option.some (SessionSlot.sess s) => s.is_changed
  | _ => false

/-- A concrete session state with no attributes, used as evaluation
input. -/
def emptySession : SessionData :=
  { _changed := false
    _data := []
    _identity := PyVal.str "sid0"
    _new := true
    _max_age := Option.none
    _created := PyVal.int 0 }

/-- No single operation rewrites the identity field. -/
theorem step_preserves_identity (s : SessionData) (op : SOp) :
    (step s op).identity = s.identity := by
  cases op with
  | get key =>
      cases h : dictGet s._data key <;>
        simp [step, stepE, SessionData.getItem, h]
  | set key v => rfl
  | del key =>
      by_cases h : dictHas s._data key = true <;>
        simp [step, stepE, SessionData.delItem, h, SessionData.identity]
  | contains key => rfl
  | len => rfl
  | iterate => rfl
  | invalidate => rfl
  | emptyq => rfl

/-- No single operation clears the change flag once set. -/
theorem step_preserves_changed (s : SessionData) (op : SOp)
    (h : s.is_changed = true) : (step s op).is_changed = true := by
  cases op with
  | get key =>
      cases hg : dictGet s._data key <;>
        simp_all [step, stepE, SessionData.getItem, SessionData.is_changed]
  | set key v => rfl
  | del key =>
      by_cases hd : dictHas s._data key = true <;>
        simp_all [step, stepE, SessionData.delItem, SessionData.is_changed]
  | contains key => exact h
  | len => exact h
  | iterate => exact h
  | invalidate => rfl
  | emptyq => exact h

/-- Claim C7: over any sequence of mapping operations, the identity
never changes after construction and the change flag is monotonic:
once true it never becomes false again. -/
theorem identity_immutable_and_changed_monotonic (s : SessionData)
    (ops : List SOp) :
    (run s ops).identity = s.identity ∧
    (s.is_changed = true → (run s ops).is_changed = true) := by
  induction ops generalizing s with
  | nil => exact ⟨rfl, fun h => h⟩
  | cons op rest ih =>
      refine ⟨?_, ?_⟩
      · calc (run (step s op) rest).identity
            = (step s op).identity := (ih (step s op)).1
          _ = s.identity := step_preserves_identity s op
      · intro h
        exact (ih (step s op)).2 (step_preserves_changed s op h)

/-- Claim C7 witness: the invariants evaluated on a concrete changed
session and a concrete operation sequence. -/
theorem identity_immutable_and_changed_monotonic_witness :
    (run (emptySession.changed)
        [SOp.set "a" (PyVal.int 1), SOp.del "missing", SOp.invalidate]).identity =
      (emptySession.changed).identity ∧
    (run (emptySession.changed)
        [SOp.set "a" (PyVal.int 1), SOp.del "missing", SOp.invalidate]).is_changed =
      true :=
  ⟨(identity_immutable_and_changed_monotonic (emptySession.changed)
      [SOp.set "a" (PyVal.int 1), SOp.del "missing", SOp.invalidate]).1,
   (identity_immutable_and_changed_monotonic (emptySession.changed)
      [SOp.set "a" (PyVal.int 1), SOp.del "missing", SOp.invalidate]).2 rfl⟩

/-- Claim C3 counterexample: deleting a key that is absent from the
attribute dict raises KeyError (modelled as Except.error), refuting
the claim that only get can fail. -/
theorem del_missing_key_raises_cex :
    stepE emptySession (SOp.del "user") = Except.error () := rfl

/-- Claim C3 amended: get of a missing key and delete of a missing key
both signal key-not-found, exactly when the key is absent; set,
containsKey, length, iterate, invalidate and isEmpty never raise. -/
theorem mapping_ops_failure_modes (s : SessionData) (key : String)
    (v : PyVal) :
    (stepE s (SOp.get key) = Except.error () ↔ s.containsKey key = false) ∧
    (stepE s (SOp.del key) = Except.error () ↔ s.containsKey key = false) ∧
    stepE s (SOp.set key v) = Except.ok (s.setItem key v) ∧
    stepE s (SOp.contains key) = Except.ok s ∧
    stepE s SOp.len = Except.ok s ∧
    stepE s SOp.iterate = Except.ok s ∧
    stepE s SOp.invalidate = Except.ok s.invalidate ∧
    stepE s SOp.emptyq = Except.ok s := by
  refine ⟨?_, ?_, rfl, rfl, rfl, rfl, rfl, rfl⟩
  · cases h : dictGet s._data key <;>
      simp [stepE, SessionData.getItem, SessionData.containsKey, dictHas, h]
  · cases h : dictGet s._data key <;>
      simp [stepE, SessionData.delItem, SessionData.containsKey, dictHas, h]

/-- Claim C4: a SessionData constructed without prior data (the data
parameter at its Python default, the empty dict) has its new flag
true, whatever the other arguments. -/
theorem new_flag_true_without_data (session_key gen_id : String) (now : Int)
    (new : Bool) (identity : PyVal) (max_age : Option Int) :
    (SessionData.init session_key gen_id now (Option.some ([] : PyDict))
        new identity max_age).map SessionData.new = Option.some true := by
  simp [SessionData.init, PyVal.truthy, SessionData.new]

/-- Claim C6: invalidate empties the attribute dict, sets the change
flag, and leaves identity and created exactly as they were. -/
theorem invalidate_clears_and_marks_changed (s : SessionData) :
    s.invalidate.empty = true ∧ s.invalidate.is_changed = true ∧
    s.invalidate.identity = s.identity ∧ s.invalidate.created = s.created := by
  simp [SessionData.invalidate, SessionData.empty, SessionData.is_changed,
    SessionData.identity, SessionData.created]

/-- Claim C8: when get_session and invalidate both succeed, forgot
returns True whether or not deleting the context slots raises; the
deletion error is swallowed, never propagated. -/
theorem forgot_returns_true_despite_del_errors (del_slots_raises : Bool) :
    forgot StepOutcome.ok StepOutcome.ok del_slots_raises = Except.ok true := by
  cases del_slots_raises <;> rfl

/-- Claim C1: on a standard, not-yet-prepared response, save_session is
called exactly once when the request context holds a changed
SessionData and zero times otherwise, and when it is called it falls
strictly after the handler returned and strictly before the middleware
returns the response. -/
theorem middleware_saves_changed_session_exactly_once
    (slot : Option SessionSlot) :
    (session_middleware slot (HandlerOutcome.response false)).2.count
        Event.saveSession = (if sessionChanged slot then 1 else 0) ∧
    ((session_middleware slot (HandlerOutcome.response false)).2.count
        Event.saveSession = 1 →
      (session_middleware slot (HandlerOutcome.response false)).2.indexOf
          Event.handlerReturned <
        (session_middleware slot (HandlerOutcome.response false)).2.indexOf
          Event.saveSession ∧
      (session_middleware slot (HandlerOutcome.response false)).2.indexOf
          Event.saveSession <
        (session_middleware slot (HandlerOutcome.response false)).2.indexOf
          Event.middlewareReturn) := by
  match slot with
  | Option.none =>
      simp [session_middleware, sessionChanged]
  | Option.some (SessionSlot.other v) =>
      simp [session_middleware, sessionChanged]
  | Option.some (SessionSlot.sess s) =>
      cases h : s.is_changed <;>
        simp [session_middleware, sessionChanged, h, List.indexOf, List.count]
      decide

/-- Identity stored by the constructor when the supplied data dict is
nonempty: the value bound to the identity key when truthy, a freshly
generated token otherwise; the explicit identity argument plays no
part. -/
theorem init_identity_of_nonempty_data (session_key gen_id : String)
    (now : Int) (l : PyDict) (new : Bool) (identity : PyVal)
    (max_age : Option Int) (s : SessionData)
    (hl : l ≠ [])
    (h : SessionData.init session_key gen_id now (Option.some l) new identity
        max_age = Option.some s) :
    s.identity =
      (if (pyGet l session_key).truthy then pyGet l session_key
       else PyVal.str gen_id) := by
  have hb : (l != []) = true := by simpa using hl
  simp only [SessionData.init, hb, if_true, Option.getD] at h
  split at h
  · exact Option.noConfusion h
  · rw [Option.some.injEq] at h
    subst h
    simp [SessionData.identity, hl]

/-- Identity stored by the constructor when the supplied data dict is
empty or absent: the explicit identity argument when truthy, a freshly
generated token otherwise. -/
theorem init_identity_of_empty_data (session_key gen_id : String)
    (now : Int) (data : Option PyDict) (new : Bool) (identity : PyVal)
    (max_age : Option Int) (s : SessionData)
    (hd : data = Option.none ∨ data = Option.some ([] : PyDict))
    (h : SessionData.init session_key gen_id now data new identity
        max_age = Option.some s) :
    s.identity = (if identity.truthy then identity else PyVal.str gen_id) := by
  rcases hd with hd | hd <;> subst hd <;>
    simp only [SessionData.init, Option.getD] at h <;>
    split at h
  · exact Option.noConfusion h
  · rw [Option.some.injEq] at h
    subst h
    simp [SessionData.identity]
  · exact Option.noConfusion h
  · rw [Option.some.injEq] at h
    subst h
    simp [SessionData.identity]

/-- Claim C2 counterexample: with a nonempty data dict that has no
identity key and an explicit truthy identity argument, the constructor
discards the explicit argument and stores a freshly generated token. -/
theorem identity_ignores_explicit_arg_cex :
    (SessionData.init "id" "g0" 100 (Option.some [("foo", PyVal.int 1)])
        false (PyVal.str "abc") Option.none).map SessionData.identity =
      Option.some (PyVal.str "g0") ∧
    PyVal.str "g0" ≠ PyVal.str "abc" := by
  refine ⟨rfl, ?_⟩
  decide

/-- Claim C2 amended: when the data dict is nonempty, the identity is
the data dict's identity-key value when truthy and a fresh token
otherwise, the explicit identity argument being ignored; only when the
data dict is empty or absent does a truthy explicit identity argument
become the identity, a fresh token being generated when it is falsy. -/
theorem identity_precedence_amended (session_key gen_id : String)
    (now : Int) (new : Bool) (identA identB : PyVal) (max_age : Option Int)
    (l : PyDict) (dataB : Option PyDict) (s t : SessionData)
    (h1 : SessionData.init session_key gen_id now (Option.some l) new identA
        max_age = Option.some s)
    (h2 : l ≠ [])
    (h3 : dataB = Option.none ∨ dataB = Option.some ([] : PyDict))
    (h4 : SessionData.init session_key gen_id now dataB new identB
        max_age = Option.some t) :
    s.identity =
      (if (pyGet l session_key).truthy then pyGet l session_key
       else PyVal.str gen_id) ∧
    t.identity = (if identB.truthy then identB else PyVal.str gen_id) :=
  ⟨init_identity_of_nonempty_data session_key gen_id now l new identA
      max_age s h2 h1,
   init_identity_of_empty_data session_key gen_id now dataB new identB
      max_age t h3 h4⟩

/-- Claim C2 amended, witness: the amended precedence evaluated on a
concrete nonempty data dict lacking the identity key and on an absent
data dict with a truthy explicit identity. -/
theorem identity_precedence_amended_witness :
    (⟨false, [("foo", PyVal.int 1)], PyVal.str "g0", false, Option.none,
        PyVal.int 100⟩ : SessionData).identity =
      (if (pyGet [("foo", PyVal.int 1)] "id").truthy
       then pyGet [("foo", PyVal.int 1)] "id" else PyVal.str "g0") ∧
    (⟨false, [], PyVal.str "xyz", false, Option.none,
        PyVal.int 100⟩ : SessionData).identity =
      (if (PyVal.str "xyz").truthy then PyVal.str "xyz"
       else PyVal.str "g0") :=
  identity_precedence_amended "id" "g0" 100 false (PyVal.str "abc")
    (PyVal.str "xyz") Option.none [("foo", PyVal.int 1)] Option.none _ _
    rfl (by decide) (Or.inl rfl) rfl

/-- Claim C9: a falsy supplied identity is silently replaced by a fresh
token: a data dict binding the identity key to None or the empty
string yields the generated token, and so does a falsy explicit
identity argument when the data dict is empty or absent. -/
theorem falsy_identity_regenerated (session_key gen_id : String)
    (now : Int) (new : Bool) (ident1 ident2 : PyVal) (max_age : Option Int)
    (l : PyDict) (data : Option PyDict) (s t : SessionData)
    (h1 : SessionData.init session_key gen_id now (Option.some l) new ident1
        max_age = Option.some s)
    (h2 : l ≠ [])
    (h3 : pyGet l session_key = PyVal.none ∨
        pyGet l session_key = PyVal.str "")
    (h4 : data = Option.none ∨ data = Option.some ([] : PyDict))
    (h5 : SessionData.init session_key gen_id now data new ident2
        max_age = Option.some t)
    (h6 : ident2.truthy = false) :
    s.identity = PyVal.str gen_id ∧ t.identity = PyVal.str gen_id := by
  constructor
  · rw [init_identity_of_nonempty_data session_key gen_id now l new ident1
      max_age s h2 h1]
    rcases h3 with h3 | h3 <;> rw [h3] <;> rfl
  · rw [init_identity_of_empty_data session_key gen_id now data new ident2
      max_age t h4 h5, h6]
    rfl

/-- Claim C9 witness: both falsy-identity scenarios evaluated on
concrete inputs: a data dict binding the identity key to the empty
string, and an empty data dict with None as the explicit identity. -/
theorem falsy_identity_regenerated_witness :
    (⟨false, [("id", PyVal.str "")], PyVal.str "g0", false, Option.none,
        PyVal.int 100⟩ : SessionData).identity = PyVal.str "g0" ∧
    (⟨false, [], PyVal.str "g0", true, Option.none,
        PyVal.int 100⟩ : SessionData).identity = PyVal.str "g0" :=
  falsy_identity_regenerated "id" "g0" 100 false (PyVal.str "abc")
    PyVal.none Option.none [("id", PyVal.str "")]
    (Option.some ([] : PyDict)) _ _ rfl (by decide) (Or.inr rfl)
    (Or.inr rfl) rfl rfl

/-- The stored max age equals the supplied one except that a falsy
supplied value (absent or zero) is stored as None. -/
theorem init_max_age_eq (session_key gen_id : String) (now : Int)
    (data : Option PyDict) (new : Bool) (identity : PyVal)
    (max_age : Option Int) (s : SessionData)
    (h : SessionData.init session_key gen_id now data new identity
        max_age = Option.some s) :
    s.max_age =
      (match max_age with
       | Option.some n => if n != 0 then Option.some n else Option.none
       | Option.none => Option.none) := by
  cases max_age with
  | none =>
      simp only [SessionData.init] at h
      split at h
      · exact Option.noConfusion h
      · rw [Option.some.injEq] at h
        subst h
        rfl
  | some n =>
      simp only [SessionData.init] at h
      split at h
      · exact Option.noConfusion h
      · rw [Option.some.injEq] at h
        subst h
        rfl

/-- Claim C10: a zero max age is treated as no max age at all: the
session stores None for it, and the storage construction falls back to
the configured SESSION_TIMEOUT. -/
theorem zero_max_age_treated_as_none (session_key gen_id : String)
    (now : Int) (data : Option PyDict) (new : Bool) (identity : PyVal)
    (s : SessionData) (session_timeout : Int)
    (h : SessionData.init session_key gen_id now data new identity
        (Option.some 0) = Option.some s) :
    s.max_age = Option.none ∧
    (AbstractStorage.init session_timeout (Option.some 0)).max_age =
      session_timeout := by
  constructor
  · rw [init_max_age_eq session_key gen_id now data new identity
      (Option.some 0) s h]
    rfl
  · rfl

/-- Claim C10 witness: the zero max age fallback evaluated on a concrete
construction and a concrete storage timeout. -/
theorem zero_max_age_treated_as_none_witness :
    (⟨false, [], PyVal.str "g0", true, Option.none,
        PyVal.int 100⟩ : SessionData).max_age = Option.none ∧
    (AbstractStorage.init 450 (Option.some 0)).max_age = 450 :=
  zero_max_age_treated_as_none "id" "g0" 100 (Option.some ([] : PyDict))
    false PyVal.none _ 450 rfl

/-- Claim C1 witness: the save path evaluated on a concrete request
context holding a changed SessionData: the save count is one and the
save event sits between the handler return and the middleware
return. -/
theorem middleware_saves_changed_session_exactly_once_witness :
    (session_middleware (Option.some (SessionSlot.sess emptySession.changed))
        (HandlerOutcome.response false)).2.count Event.saveSession = 1 ∧
    (session_middleware (Option.some (SessionSlot.sess emptySession.changed))
        (HandlerOutcome.response false)).2.indexOf Event.handlerReturned <
      (session_middleware (Option.some (SessionSlot.sess emptySession.changed))
        (HandlerOutcome.response false)).2.indexOf Event.saveSession ∧
    (session_middleware (Option.some (SessionSlot.sess emptySession.changed))
        (HandlerOutcome.response false)).2.indexOf Event.saveSession <
      (session_middleware (Option.some (SessionSlot.sess emptySession.changed))
        (HandlerOutcome.response false)).2.indexOf Event.middlewareReturn := by
  have h := middleware_saves_changed_session_exactly_once
    (Option.some (SessionSlot.sess emptySession.changed))
  have hc : (session_middleware
      (Option.some (SessionSlot.sess emptySession.changed))
      (HandlerOutcome.response false)).2.count Event.saveSession = 1 := by
    rw [h.1]
    rfl
  exact ⟨hc, h.2 hc⟩

/-- Claim C5: when the handler result is not a standard response object,
the middleware returns it unchanged and never reads the session slot
nor calls save_session, whatever the request context holds. -/
theorem middleware_passes_through_non_response
    (slot : Option SessionSlot) (v : PyVal) :
    (session_middleware slot (HandlerOutcome.nonResponse v)).1 =
        MwResult.returned (HandlerOutcome.nonResponse v) ∧
    (session_middleware slot (HandlerOutcome.nonResponse v)).2.count
        Event.inspectSession = 0 ∧
    (session_middleware slot (HandlerOutcome.nonResponse v)).2.count
        Event.saveSession = 0 := by
  simp [session_middleware]

end Navigator
